import Mathlib

/-!
Shallow embedding of the turn-operation engine of `homeworlds-rust`
(`src/public/*.rs`, `src/engine/operations/*.rs`).

Rust `HashMap<K, NonZero<u8>>` ledgers are embedded as association lists
`List (K × Nat)`; a `NonZero<u8>` count is a `Nat` (valid states keep it in
`1..=255`, and `checked_add` failing exactly at 255 is modelled explicitly).
Each Rust `fn apply(self, state: &mut CurrentTurnState) -> Result<(), OperationError>`
becomes a Lean function `State → Except OperationError Unit × State`
returning both the `Result` and the final state, so that mutations the Rust
code performs before an early `return Err(..)` are preserved by the model.
-/

namespace Homeworlds

/-- Decidable equality of `Result` values (Lean's `Except`). -/
instance instDecEqExcept {ε α : Type} [DecidableEq ε] [DecidableEq α] :
    DecidableEq (Except ε α) := fun x y =>
  match x, y with
  | .ok a, .ok b =>
    if h : a = b then .isTrue (by rw [h]) else .isFalse (by intro hh; cases hh; exact h rfl)
  | .error a, .error b =>
    if h : a = b then .isTrue (by rw [h]) else .isFalse (by intro hh; cases hh; exact h rfl)
  | .ok _, .error _ => .isFalse (by intro hh; cases hh)
  | .error _, .ok _ => .isFalse (by intro hh; cases hh)

/-- `public::common::Color`. -/
inductive Color where
  | Green | Yellow | Red | Blue
deriving DecidableEq

/-- `public::common::Size`. -/
inductive Size where
  | Small | Medium | Large
deriving DecidableEq

/-- `public::common::Power` (the source spells the third variant `Captute`). -/
inductive Power where
  | Build | Move | Captute | Trade
deriving DecidableEq

/-- `public::common::Pyramid`. -/
structure Pyramid where
  color : Color
  size : Size
deriving DecidableEq

/-- `public::common::Player`. -/
inductive Player where
  | First | Second
deriving DecidableEq

/-- `public::board::Star`. -/
structure Star where
  pyramid : Pyramid
deriving DecidableEq

/-- `public::board::BinaryStarId`. -/
inductive BinaryStarId where
  | Alpha | Beta
deriving DecidableEq

/-- `public::board::StarSystemCenter`. -/
inductive StarSystemCenter where
  | Empty
  | SingleStar (star : Star)
  | BinaryStar (alpha : Star) (beta : Star)
deriving DecidableEq

/-- `public::board::Starship`. -/
structure Starship where
  pyramid : Pyramid
deriving DecidableEq

/-- A Rust `HashMap<K, NonZero<u8>>` ledger, as an association list. -/
abbrev Ledger (K : Type) : Type := List (K × Nat)

/-- `HashMap::get`: the count stored at `k`, if present (first occurrence). -/
def Ledger.get {K : Type} [DecidableEq K] (l : Ledger K) (k : K) : Option Nat :=
  (List.find? (fun p => p.1 = k) l).map Prod.snd

/-- Overwrite the count at the first occurrence of `k`. -/
def Ledger.set {K : Type} [DecidableEq K] (l : Ledger K) (k : K) (c : Nat) : Ledger K :=
  match l with
  | [] => []
  | p :: rest => if p.1 = k then (k, c) :: rest else p :: Ledger.set rest k c

/-- `HashMap` entry removal: drop the first occurrence of `k`. -/
def Ledger.remove {K : Type} [DecidableEq K] (l : Ledger K) (k : K) : Ledger K :=
  match l with
  | [] => []
  | p :: rest => if p.1 = k then rest else p :: Ledger.remove rest k

/-- `Entry::Vacant::insert`: add a fresh key. -/
def Ledger.insert {K : Type} (l : Ledger K) (k : K) (c : Nat) : Ledger K :=
  l ++ [(k, c)]

/-- `engine::operations::common::UpdateOneDelta`. -/
inductive UpdateOneDelta where
  | AddOne | RemoveOne
deriving DecidableEq

/-- `engine::operations::utils::update_hashmap_count`.

The Rust function receives a `HashMap` entry and mutates it in place; here it
receives the ledger and the key and returns the updated ledger, or the
caller-supplied error with the ledger unchanged (on the Rust error paths the
entry is never written). `NonZero::<u8>::checked_add(1)` returns `None`
exactly when the count is `255`. -/
def update_hashmap_count {K E : Type} [DecidableEq K]
    (l : Ledger K) (key : K) (delta : UpdateOneDelta)
    (overflow_error : E) (not_found_error : E) : Except E (Ledger K) :=
  match delta with
  | .AddOne =>
    match Ledger.get l key with
    | some count =>
      if count + 1 ≤ 255 then .ok (Ledger.set l key (count + 1))
      else .error overflow_error
    | none => .ok (Ledger.insert l key 1)
  | .RemoveOne =>
    match Ledger.get l key with
    | some count =>
      if count > 1 then .ok (Ledger.set l key (count - 1))
      else .ok (Ledger.remove l key)
    | none => .error not_found_error

/-- `public::board::Fleet`. -/
structure Fleet where
  starships : Ledger Starship
deriving DecidableEq

/-- `Fleet::default()`: an empty ledger. -/
def Fleet.default : Fleet := ⟨[]⟩

/-- `public::board::StarSystem`. -/
structure StarSystem where
  name : String
  center : StarSystemCenter
  fleet_first : Fleet
  fleet_second : Fleet
  is_homeworld_for : Option Player
deriving DecidableEq

/-- `StarSystem::fleet` / `fleet_mut` (read side). -/
def StarSystem.fleet (sys : StarSystem) (p : Player) : Fleet :=
  match p with
  | .First => sys.fleet_first
  | .Second => sys.fleet_second

/-- Writing back through `StarSystem::fleet_mut`. -/
def StarSystem.setFleet (sys : StarSystem) (p : Player) (f : Fleet) : StarSystem :=
  match p with
  | .First => { sys with fleet_first := f }
  | .Second => { sys with fleet_second := f }

/-- `public::board::Bank`. -/
structure Bank where
  pyramids : Ledger Pyramid
deriving DecidableEq

/-- `public::board::GameBoard`. -/
structure GameBoard where
  bank : Bank
  homeworld_first : StarSystem
  homeworld_second : StarSystem
  discovered_systems : List StarSystem
deriving DecidableEq

/-- `public::current_turn::PendingPowers` (`NonZero<u8>` counts as `Nat`). -/
inductive PendingPowers where
  | Nil
  | Pending (power : Power) (count : Nat) (original_count : Nat)
  | Exhausted (power : Power) (original_count : Nat)
deriving DecidableEq

/-- `public::current_turn::CurrentTurnStatus`. -/
inductive CurrentTurnStatus where
  | MakingActions | Passing | Resigning
deriving DecidableEq

/-- `public::current_turn::CurrentTurnState`. -/
structure CurrentTurnState where
  player : Player
  game_board : GameBoard
  pending_powers : PendingPowers
  current_turn_status : CurrentTurnStatus
deriving DecidableEq

/-- `engine::operations::pending_powers::UpdatePendingPowersError`. -/
inductive UpdatePendingPowersError where
  | CanOnlyBeSetOnce | NotSet | AlreadyExhausted
deriving DecidableEq

/-- `engine::operations::fleet::UpdateFleetError`. -/
inductive UpdateFleetError where
  | NoSuchStarships | FleetCountOverflow
deriving DecidableEq

/-- `engine::operations::bank::UpdateBankError`. -/
inductive UpdateBankError where
  | NoPyramidsInBank | BankCountOverflow
deriving DecidableEq

/-- `engine::operations::systems::ForgetSystemError`. -/
inductive ForgetSystemError where
  | CannotForgetHomeworld | FleetsNotEmpty
deriving DecidableEq

/-- `engine::operations::stars::DestroyStarError`. -/
inductive DestroyStarError where
  | CenterAlreadyEmpty | NotABinarySystem | NotASingleStarSystem
deriving DecidableEq

/-- `engine::operations::turn::SetCurrentTurnStatusError`. -/
inductive SetCurrentTurnStatusError where
  | CanOnlyChangeFromMakingActions | NoChange
deriving DecidableEq

/-- `engine::operations::OperationError`: the closed top-level error union;
the per-family `#[from]` wrappers become constructors. -/
inductive OperationError where
  | DuplicatedStarSystemName (name : String)
  | UnknownStarSystem
  | UpdatePendingPowersError (e : UpdatePendingPowersError)
  | UpdateFleetError (e : UpdateFleetError)
  | UpdateBankError (e : UpdateBankError)
  | ForgetSystemError (e : ForgetSystemError)
  | DestroyStarError (e : DestroyStarError)
  | SetCurrentTurnStatusError (e : SetCurrentTurnStatusError)
deriving DecidableEq

/-- The Rust `fn apply(&mut state) -> Result<(), OperationError>` outcome:
the returned `Result` together with the state left behind by the call. -/
abbrev ApplyResult : Type := Except OperationError Unit × CurrentTurnState

/-- `engine::operations::systems::DiscoverSystem`. -/
structure DiscoverSystem where
  name : String
  center_star : Star
deriving DecidableEq

/-- `DiscoverSystem::apply`: reject if any discovered system has the name,
else push a fresh single-star system. -/
def DiscoverSystem.apply (op : DiscoverSystem) (state : CurrentTurnState) : ApplyResult :=
  if state.game_board.discovered_systems.any (fun it => it.name = op.name) then
    (.error (.DuplicatedStarSystemName op.name), state)
  else
    (.ok (),
      { state with
        game_board :=
          { state.game_board with
            discovered_systems :=
              state.game_board.discovered_systems ++
                [{ name := op.name
                   center := .SingleStar op.center_star
                   fleet_first := Fleet.default
                   fleet_second := Fleet.default
                   is_homeworld_for := none }] } })

/-- `engine::operations::systems::ForgetSystem`. -/
structure ForgetSystem where
  star_system_name : String
deriving DecidableEq

/-- `Vec::iter().position(..)` + checks + `Vec::remove` of `ForgetSystem::apply`,
acting on the first system whose name matches. -/
def ForgetSystem.applyList (n : String) : List StarSystem →
    Except OperationError Unit × List StarSystem
  | [] => (.error .UnknownStarSystem, [])
  | sys :: rest =>
    if sys.name = n then
      if sys.is_homeworld_for.isSome then
        (.error (.ForgetSystemError .CannotForgetHomeworld), sys :: rest)
      else if sys.fleet_first.starships ≠ [] ∨ sys.fleet_second.starships ≠ [] then
        (.error (.ForgetSystemError .FleetsNotEmpty), sys :: rest)
      else
        (.ok (), rest)
    else
      let (r, rest') := ForgetSystem.applyList n rest
      (r, sys :: rest')

/-- `ForgetSystem::apply`. -/
def ForgetSystem.apply (op : ForgetSystem) (state : CurrentTurnState) : ApplyResult :=
  let (r, systems) :=
    ForgetSystem.applyList op.star_system_name state.game_board.discovered_systems
  (r, { state with game_board := { state.game_board with discovered_systems := systems } })

/-- `iter_mut().find(|it| it.name == n)` followed by an in-place mutation `f`
of the found system: `f` returns the call's `Result` and the system as the
mutation leaves it (also on error paths). When no system matches, the list is
untouched and the result is `UnknownStarSystem`. -/
def applyToSystem (n : String) (f : StarSystem → Except OperationError Unit × StarSystem) :
    List StarSystem → Except OperationError Unit × List StarSystem
  | [] => (.error .UnknownStarSystem, [])
  | sys :: rest =>
    if sys.name = n then
      let (r, sys') := f sys
      (r, sys' :: rest)
    else
      let (r, rest') := applyToSystem n f rest
      (r, sys :: rest')

/-- `engine::operations::fleet::UpdateFleet`. -/
structure UpdateFleet where
  star_system_name : String
  player : Player
  starship : Starship
  delta : UpdateOneDelta
deriving DecidableEq

/-- `UpdateFleet::apply`: resolve the system by name, then run the ledger
primitive on the acting player's fleet; on a ledger error the system is left
unchanged (the Rust entry is never written on those paths). -/
def UpdateFleet.apply (op : UpdateFleet) (state : CurrentTurnState) : ApplyResult :=
  let (r, systems) :=
    applyToSystem op.star_system_name
      (fun sys =>
        match update_hashmap_count (sys.fleet op.player).starships op.starship op.delta
            (OperationError.UpdateFleetError .FleetCountOverflow)
            (OperationError.UpdateFleetError .NoSuchStarships) with
        | .ok l => (.ok (), sys.setFleet op.player ⟨l⟩)
        | .error e => (.error e, sys))
      state.game_board.discovered_systems
  (r, { state with game_board := { state.game_board with discovered_systems := systems } })

/-- `engine::operations::bank::UpdateBank`. -/
structure UpdateBank where
  pyramid : Pyramid
  delta : UpdateOneDelta
deriving DecidableEq

/-- `UpdateBank::apply`: the ledger primitive on the shared bank. -/
def UpdateBank.apply (op : UpdateBank) (state : CurrentTurnState) : ApplyResult :=
  match update_hashmap_count state.game_board.bank.pyramids op.pyramid op.delta
      (OperationError.UpdateBankError .BankCountOverflow)
      (OperationError.UpdateBankError .NoPyramidsInBank) with
  | .ok l =>
    (.ok (), { state with game_board := { state.game_board with bank := ⟨l⟩ } })
  | .error e => (.error e, state)

/-- `engine::operations::stars::DestroyStarSelector`. -/
inductive DestroyStarSelector where
  | Binary (id : BinaryStarId)
  | Single
deriving DecidableEq

/-- `engine::operations::stars::DestroyStar`. -/
structure DestroyStar where
  star_system_name : String
  star : DestroyStarSelector
deriving DecidableEq

/-- The body of `DestroyStar::apply` acting on the found system: the Rust code
first does `replace(&mut system.center, Empty)` and only assigns the computed
new center on success, so every `return Err(..)` leaves the center `Empty`. -/
def DestroyStar.applySystem (sel : DestroyStarSelector) (sys : StarSystem) :
    Except OperationError Unit × StarSystem :=
  let old_center := sys.center
  let sysEmptied := { sys with center := StarSystemCenter.Empty }
  match sel with
  | .Binary star_id =>
    match old_center with
    | .BinaryStar alpha beta =>
      let remaining_star := match star_id with
        | .Alpha => beta
        | .Beta => alpha
      (.ok (), { sysEmptied with center := .SingleStar remaining_star })
    | .SingleStar _ => (.error (.DestroyStarError .NotABinarySystem), sysEmptied)
    | .Empty => (.error (.DestroyStarError .CenterAlreadyEmpty), sysEmptied)
  | .Single =>
    match old_center with
    | .SingleStar _ => (.ok (), { sysEmptied with center := .Empty })
    | .BinaryStar _ _ => (.error (.DestroyStarError .NotASingleStarSystem), sysEmptied)
    | .Empty => (.error (.DestroyStarError .CenterAlreadyEmpty), sysEmptied)

/-- `DestroyStar::apply`. -/
def DestroyStar.apply (op : DestroyStar) (state : CurrentTurnState) : ApplyResult :=
  let (r, systems) :=
    applyToSystem op.star_system_name (DestroyStar.applySystem op.star)
      state.game_board.discovered_systems
  (r, { state with game_board := { state.game_board with discovered_systems := systems } })

/-- `engine::operations::pending_powers::UpdatePendingPowers`. -/
inductive UpdatePendingPowers where
  | Set (power : Power) (count : Nat)
  | UseOne
deriving DecidableEq

/-- `UpdatePendingPowers::apply`: the Rust code first does
`replace(&mut state.pending_powers, Nil)` and assigns the new value only on
success, so every `return Err(..)` leaves `pending_powers = Nil`. -/
def UpdatePendingPowers.apply (op : UpdatePendingPowers) (state : CurrentTurnState) :
    ApplyResult :=
  let pending_powers := state.pending_powers
  let stateEmptied := { state with pending_powers := PendingPowers.Nil }
  match op with
  | .Set power count =>
    match pending_powers with
    | .Nil =>
      (.ok (), { stateEmptied with
        pending_powers := .Pending power count count })
    | _ =>
      (.error (.UpdatePendingPowersError .CanOnlyBeSetOnce), stateEmptied)
  | .UseOne =>
    match pending_powers with
    | .Pending power count original_count =>
      if count > 1 then
        (.ok (), { stateEmptied with
          pending_powers := .Pending power (count - 1) original_count })
      else
        (.ok (), { stateEmptied with
          pending_powers := .Exhausted power original_count })
    | .Nil => (.error (.UpdatePendingPowersError .NotSet), stateEmptied)
    | .Exhausted _ _ =>
      (.error (.UpdatePendingPowersError .AlreadyExhausted), stateEmptied)

/-- `engine::operations::turn::SetCurrentTurnStatus`. -/
structure SetCurrentTurnStatus where
  new_status : CurrentTurnStatus
deriving DecidableEq

/-- `SetCurrentTurnStatus::apply`. -/
def SetCurrentTurnStatus.apply (op : SetCurrentTurnStatus) (state : CurrentTurnState) :
    ApplyResult :=
  if state.current_turn_status = op.new_status then
    (.error (.SetCurrentTurnStatusError .NoChange), state)
  else if state.current_turn_status ≠ CurrentTurnStatus.MakingActions then
    (.error (.SetCurrentTurnStatusError .CanOnlyChangeFromMakingActions), state)
  else
    (.ok (), { state with current_turn_status := op.new_status })

/-- The closed operation set dispatched through the `Apply` trait. -/
inductive BasicOperation where
  | discoverSystem (op : DiscoverSystem)
  | forgetSystem (op : ForgetSystem)
  | updateFleet (op : UpdateFleet)
  | updateBank (op : UpdateBank)
  | destroyStar (op : DestroyStar)
  | updatePendingPowers (op : UpdatePendingPowers)
  | setCurrentTurnStatus (op : SetCurrentTurnStatus)
deriving DecidableEq

/-- The dispatched `Apply::apply`. -/
def BasicOperation.apply (op : BasicOperation) (state : CurrentTurnState) : ApplyResult :=
  match op with
  | .discoverSystem op => op.apply state
  | .forgetSystem op => op.apply state
  | .updateFleet op => op.apply state
  | .updateBank op => op.apply state
  | .destroyStar op => op.apply state
  | .updatePendingPowers op => op.apply state
  | .setCurrentTurnStatus op => op.apply state

/-- A caller looping `update_hashmap_count` over a list of (key, delta)
requests; when the primitive returns an error the Rust map is untouched, so
the ledger is kept as-is and the loop continues. -/
def runUpdates {K : Type} [DecidableEq K] (ops : List (K × UpdateOneDelta))
    (l : Ledger K) : Ledger K :=
  match ops with
  | [] => l
  | (k, d) :: rest =>
    match update_hashmap_count l k d () () with
    | .ok next => runUpdates rest next
    | .error _ => runUpdates rest l


/-! ### Concrete fixtures (the shape produced by the repository's test setup) -/

def pSR : Pyramid := ⟨.Red, .Small⟩

def pMB : Pyramid := ⟨.Blue, .Medium⟩

def hw1 : StarSystem := ⟨"Homeworld1", .Empty, Fleet.default, Fleet.default, some .First⟩

def hw2 : StarSystem := ⟨"Homeworld2", .Empty, Fleet.default, Fleet.default, some .Second⟩

/-- The `create_test_state()` board of the repository's tests: two homeworlds,
empty bank, no discovered systems, `PendingPowers::Nil`, `MakingActions`. -/
def baseState : CurrentTurnState := ⟨.First, ⟨⟨[]⟩, hw1, hw2, []⟩, .Nil, .MakingActions⟩

def binSys : StarSystem := ⟨"Alpha", .BinaryStar ⟨pSR⟩ ⟨pMB⟩, Fleet.default, Fleet.default, none⟩

def binState : CurrentTurnState := ⟨.First, ⟨⟨[]⟩, hw1, hw2, [binSys]⟩, .Nil, .MakingActions⟩

def singleSys : StarSystem := ⟨"Alpha", .SingleStar ⟨pSR⟩, Fleet.default, Fleet.default, none⟩

def singleState : CurrentTurnState := ⟨.First, ⟨⟨[]⟩, hw1, hw2, [singleSys]⟩, .Nil, .MakingActions⟩

def cleanSys : StarSystem := ⟨"Alpha", .Empty, Fleet.default, Fleet.default, none⟩

def cleanState : CurrentTurnState := ⟨.First, ⟨⟨[]⟩, hw1, hw2, [cleanSys]⟩, .Nil, .MakingActions⟩

def hwDisc : StarSystem := ⟨"Alpha", .Empty, Fleet.default, Fleet.default, some .First⟩

def hwDiscState : CurrentTurnState := ⟨.First, ⟨⟨[]⟩, hw1, hw2, [hwDisc]⟩, .Nil, .MakingActions⟩

def fleetSys : StarSystem := ⟨"Alpha", .Empty, ⟨[(⟨pSR⟩, 1)]⟩, Fleet.default, none⟩

def fleetState : CurrentTurnState := ⟨.First, ⟨⟨[]⟩, hw1, hw2, [fleetSys]⟩, .Nil, .MakingActions⟩

def exhState : CurrentTurnState := ⟨.First, ⟨⟨[]⟩, hw1, hw2, []⟩, .Exhausted .Build 3, .MakingActions⟩

def passState : CurrentTurnState := ⟨.First, ⟨⟨[]⟩, hw1, hw2, []⟩, .Nil, .Passing⟩

/-- A homeworld named `"A"`, to probe name collisions with homeworlds. -/
def hwA : StarSystem := ⟨"A", .Empty, Fleet.default, Fleet.default, some .First⟩

def stA : CurrentTurnState := ⟨.First, ⟨⟨[]⟩, hwA, hw2, []⟩, .Nil, .MakingActions⟩


/-! ### Helper lemmas about name lookup over the discovered list -/

theorem applyToSystem_skip (n : String)
    (f : StarSystem → Except OperationError Unit × StarSystem)
    (pre rest : List StarSystem) (h : ∀ x ∈ pre, x.name ≠ n) :
    applyToSystem n f (pre ++ rest) =
      ((applyToSystem n f rest).1, pre ++ (applyToSystem n f rest).2) := by
  induction pre with
  | nil => simp
  | cons a pre ih =>
    have ha : ¬ (a.name = n) := h a (by simp)
    simp only [List.cons_append, applyToSystem, ha, if_false, List.append_eq]
    rw [ih (fun x hx => h x (by simp [hx]))]

theorem applyToSystem_head (n : String)
    (f : StarSystem → Except OperationError Unit × StarSystem)
    (sys : StarSystem) (post : List StarSystem) (h : sys.name = n) :
    applyToSystem n f (sys :: post) = ((f sys).1, (f sys).2 :: post) := by
  simp [applyToSystem, h]

theorem applyToSystem_not_found (n : String)
    (f : StarSystem → Except OperationError Unit × StarSystem)
    (l : List StarSystem) (h : ∀ x ∈ l, x.name ≠ n) :
    applyToSystem n f l = (.error .UnknownStarSystem, l) := by
  have := applyToSystem_skip n f l [] h
  simpa [applyToSystem] using this

theorem applyList_skip (n : String) (pre rest : List StarSystem)
    (h : ∀ x ∈ pre, x.name ≠ n) :
    ForgetSystem.applyList n (pre ++ rest) =
      ((ForgetSystem.applyList n rest).1, pre ++ (ForgetSystem.applyList n rest).2) := by
  induction pre with
  | nil => simp
  | cons a pre ih =>
    have ha : ¬ (a.name = n) := h a (by simp)
    simp only [List.cons_append, ForgetSystem.applyList, ha, if_false, List.append_eq]
    rw [ih (fun x hx => h x (by simp [hx]))]

theorem applyList_not_found (n : String) (l : List StarSystem)
    (h : ∀ x ∈ l, x.name ≠ n) :
    ForgetSystem.applyList n l = (.error .UnknownStarSystem, l) := by
  have := applyList_skip n l [] h
  simpa [ForgetSystem.applyList] using this

/-! ### Claims -/

/-- C1: atomicity fails on the code. `DestroyStar{Single}` on the
binary-centered system `"Alpha"` returns `NotASingleStarSystem` yet leaves
the system's center `Empty` (pre-call: `BinaryStar`), because the
`mem::replace(.., Empty)` sentinel is never restored on the early
`return Err(..)` paths; likewise a failing `UpdatePendingPowers::Set` on an
`Exhausted` state leaves `pending_powers = Nil` instead of its pre-call
value. -/
theorem C1_failing_operation_mutates_state :
    (BasicOperation.apply (.destroyStar ⟨"Alpha", .Single⟩) binState).1
        = .error (.DestroyStarError .NotASingleStarSystem) ∧
    (BasicOperation.apply (.destroyStar ⟨"Alpha", .Single⟩) binState).2 ≠ binState ∧
    ((BasicOperation.apply (.destroyStar ⟨"Alpha", .Single⟩)
        binState).2.game_board.discovered_systems.map StarSystem.center)
        = [.Empty] ∧
    (binState.game_board.discovered_systems.map StarSystem.center)
        = [.BinaryStar ⟨pSR⟩ ⟨pMB⟩] ∧
    (BasicOperation.apply (.updatePendingPowers (.Set .Build 1)) exhState).1
        = .error (.UpdatePendingPowersError .CanOnlyBeSetOnce) ∧
    (BasicOperation.apply (.updatePendingPowers (.Set .Build 1)) exhState).2.pending_powers
        = .Nil ∧
    exhState.pending_powers = .Exhausted .Build 3 := by
  decide

/-- C2: `Exhausted` is not terminal on the code. From `Exhausted{Build, 3}`,
`UseOne` fails with `AlreadyExhausted` but resets `pending_powers` to `Nil`
(the unrestored `mem::replace` sentinel), after which `Set{Build, 1}`
succeeds and `pending_powers` is `Pending` again within the same state
value. -/
theorem C2_exhausted_can_be_rearmed :
    (BasicOperation.apply (.updatePendingPowers .UseOne) exhState).1
        = .error (.UpdatePendingPowersError .AlreadyExhausted) ∧
    (BasicOperation.apply (.updatePendingPowers .UseOne) exhState).2.pending_powers
        = .Nil ∧
    (BasicOperation.apply (.updatePendingPowers (.Set .Build 1))
        (BasicOperation.apply (.updatePendingPowers .UseOne) exhState).2).1
        = .ok () ∧
    (BasicOperation.apply (.updatePendingPowers (.Set .Build 1))
        (BasicOperation.apply (.updatePendingPowers .UseOne) exhState).2).2.pending_powers
        = .Pending .Build 1 1 := by
  decide

/-- C4 counterexample: from `Passing`, `SetCurrentTurnStatus` with target
`Passing` fails with `NoChange`, not with `CanOnlyChangeFromMakingActions`
as the claim states for every target. -/
theorem C4_counterexample_target_passing :
    (SetCurrentTurnStatus.apply ⟨.Passing⟩ passState).1
        ≠ .error (.SetCurrentTurnStatusError .CanOnlyChangeFromMakingActions) ∧
    (SetCurrentTurnStatus.apply ⟨.Passing⟩ passState).1
        = .error (.SetCurrentTurnStatusError .NoChange) ∧
    passState.current_turn_status = .Passing := by
  decide

/-- C4 (amended): from `Passing`, every `SetCurrentTurnStatus` call fails and
leaves the state unchanged; the error is `NoChange` when the target is
`Passing` itself and `CanOnlyChangeFromMakingActions` for any other target. -/
theorem C4_passing_is_terminal (s : CurrentTurnState) (target : CurrentTurnStatus)
    (h : s.current_turn_status = .Passing) :
    (target = .Passing →
      SetCurrentTurnStatus.apply ⟨target⟩ s
        = (.error (.SetCurrentTurnStatusError .NoChange), s)) ∧
    (target ≠ .Passing →
      SetCurrentTurnStatus.apply ⟨target⟩ s
        = (.error (.SetCurrentTurnStatusError .CanOnlyChangeFromMakingActions), s)) := by
  constructor
  · intro ht
    simp [SetCurrentTurnStatus.apply, h, ht]
  · intro ht
    simp [SetCurrentTurnStatus.apply, h, Ne.symm ht]

/-- C4 witness: the amended claim evaluated on a concrete `Passing` state for
all three targets. -/
theorem C4_passing_is_terminal_witness :
    SetCurrentTurnStatus.apply ⟨.Passing⟩ passState
      = (.error (.SetCurrentTurnStatusError .NoChange), passState) ∧
    SetCurrentTurnStatus.apply ⟨.Resigning⟩ passState
      = (.error (.SetCurrentTurnStatusError .CanOnlyChangeFromMakingActions), passState) ∧
    SetCurrentTurnStatus.apply ⟨.MakingActions⟩ passState
      = (.error (.SetCurrentTurnStatusError .CanOnlyChangeFromMakingActions), passState) :=
  ⟨(C4_passing_is_terminal passState .Passing rfl).1 rfl,
   (C4_passing_is_terminal passState .Resigning rfl).2 (by decide),
   (C4_passing_is_terminal passState .MakingActions rfl).2 (by decide)⟩

/-- C10: `SetCurrentTurnStatus` checks `NoChange` first (whatever the current
status), then `CanOnlyChangeFromMakingActions`, and otherwise overwrites the
status with exactly the target. -/
theorem C10_set_status_check_order (s : CurrentTurnState) (target : CurrentTurnStatus) :
    (s.current_turn_status = target →
      SetCurrentTurnStatus.apply ⟨target⟩ s
        = (.error (.SetCurrentTurnStatusError .NoChange), s)) ∧
    (s.current_turn_status ≠ target → s.current_turn_status ≠ .MakingActions →
      SetCurrentTurnStatus.apply ⟨target⟩ s
        = (.error (.SetCurrentTurnStatusError .CanOnlyChangeFromMakingActions), s)) ∧
    (s.current_turn_status = .MakingActions → s.current_turn_status ≠ target →
      SetCurrentTurnStatus.apply ⟨target⟩ s
        = (.ok (), { s with current_turn_status := target })) := by
  refine ⟨?_, ?_, ?_⟩
  · intro h
    simp [SetCurrentTurnStatus.apply, h]
  · intro h h2
    simp [SetCurrentTurnStatus.apply, h, h2]
  · intro h h2
    rw [h] at h2
    simp [SetCurrentTurnStatus.apply, h, h2]

/-- C10 witness: the three branches evaluated on concrete states. -/
theorem C10_set_status_check_order_witness :
    SetCurrentTurnStatus.apply ⟨.MakingActions⟩ baseState
      = (.error (.SetCurrentTurnStatusError .NoChange), baseState) ∧
    SetCurrentTurnStatus.apply ⟨.MakingActions⟩ passState
      = (.error (.SetCurrentTurnStatusError .CanOnlyChangeFromMakingActions), passState) ∧
    SetCurrentTurnStatus.apply ⟨.Passing⟩ baseState
      = (.ok (), { baseState with current_turn_status := .Passing }) :=
  ⟨(C10_set_status_check_order baseState .MakingActions).1 rfl,
   (C10_set_status_check_order passState .MakingActions).2.1 (by decide) (by decide),
   (C10_set_status_check_order baseState .Passing).2.2 rfl (by decide)⟩

/-- C6: the pending-powers round trip from `Nil`: `Set{Build, 3}` then three
`UseOne` calls succeed and yield `Pending{Build, 2, 3}`, `Pending{Build, 1, 3}`
and `Exhausted{Build, 3}`; a fourth `UseOne` fails `AlreadyExhausted`; a
second `Set` while `Pending` fails `CanOnlyBeSetOnce`; `UseOne` from `Nil`
fails `NotSet`. -/
theorem C6_pending_powers_round_trip (s : CurrentTurnState) (p : Power) (c : Nat)
    (h : s.pending_powers = .Nil) :
    UpdatePendingPowers.apply (.Set .Build 3) s
      = (.ok (), { s with pending_powers := .Pending .Build 3 3 }) ∧
    UpdatePendingPowers.apply .UseOne { s with pending_powers := .Pending .Build 3 3 }
      = (.ok (), { s with pending_powers := .Pending .Build 2 3 }) ∧
    UpdatePendingPowers.apply .UseOne { s with pending_powers := .Pending .Build 2 3 }
      = (.ok (), { s with pending_powers := .Pending .Build 1 3 }) ∧
    UpdatePendingPowers.apply .UseOne { s with pending_powers := .Pending .Build 1 3 }
      = (.ok (), { s with pending_powers := .Exhausted .Build 3 }) ∧
    (UpdatePendingPowers.apply .UseOne { s with pending_powers := .Exhausted .Build 3 }).1
      = .error (.UpdatePendingPowersError .AlreadyExhausted) ∧
    (UpdatePendingPowers.apply (.Set p c) { s with pending_powers := .Pending .Build 3 3 }).1
      = .error (.UpdatePendingPowersError .CanOnlyBeSetOnce) ∧
    (UpdatePendingPowers.apply .UseOne s).1
      = .error (.UpdatePendingPowersError .NotSet) := by
  obtain ⟨pl, gb, pp, ts⟩ := s
  simp only [CurrentTurnState.mk.injEq] at h
  subst h
  refine ⟨?_, ?_, ?_, ?_, ?_, ?_, ?_⟩ <;> simp [UpdatePendingPowers.apply]

/-- C6 witness: the round trip evaluated on the concrete test state. -/
theorem C6_pending_powers_round_trip_witness :
    UpdatePendingPowers.apply (.Set .Build 3) baseState
      = (.ok (), { baseState with pending_powers := .Pending .Build 3 3 }) ∧
    UpdatePendingPowers.apply .UseOne { baseState with pending_powers := .Pending .Build 3 3 }
      = (.ok (), { baseState with pending_powers := .Pending .Build 2 3 }) ∧
    UpdatePendingPowers.apply .UseOne { baseState with pending_powers := .Pending .Build 2 3 }
      = (.ok (), { baseState with pending_powers := .Pending .Build 1 3 }) ∧
    UpdatePendingPowers.apply .UseOne { baseState with pending_powers := .Pending .Build 1 3 }
      = (.ok (), { baseState with pending_powers := .Exhausted .Build 3 }) ∧
    (UpdatePendingPowers.apply .UseOne
        { baseState with pending_powers := .Exhausted .Build 3 }).1
      = .error (.UpdatePendingPowersError .AlreadyExhausted) ∧
    (UpdatePendingPowers.apply (.Set .Trade 1)
        { baseState with pending_powers := .Pending .Build 3 3 }).1
      = .error (.UpdatePendingPowersError .CanOnlyBeSetOnce) ∧
    (UpdatePendingPowers.apply .UseOne baseState).1
      = .error (.UpdatePendingPowersError .NotSet) :=
  C6_pending_powers_round_trip baseState .Trade 1 rfl

/-- C5: every by-name lookup scans only the growable discovered list: when no
discovered system is named `n` (the two homeworld fields are unconstrained and
may well carry the name `n`), `DiscoverSystem` succeeds while `UpdateFleet`,
`DestroyStar` and `ForgetSystem` fail `UnknownStarSystem` without touching the
state. -/
theorem C5_lookup_scans_only_discovered (s : CurrentTurnState) (n : String)
    (star : Star) (p : Player) (ship : Starship) (d : UpdateOneDelta)
    (sel : DestroyStarSelector)
    (h : ∀ x ∈ s.game_board.discovered_systems, x.name ≠ n) :
    (DiscoverSystem.apply ⟨n, star⟩ s).1 = .ok () ∧
    UpdateFleet.apply ⟨n, p, ship, d⟩ s = (.error .UnknownStarSystem, s) ∧
    DestroyStar.apply ⟨n, sel⟩ s = (.error .UnknownStarSystem, s) ∧
    ForgetSystem.apply ⟨n⟩ s = (.error .UnknownStarSystem, s) := by
  have hany : s.game_board.discovered_systems.any (fun it => it.name = n) = false := by
    simp only [List.any_eq_false, decide_eq_true_eq]
    exact h
  refine ⟨?_, ?_, ?_, ?_⟩
  · simp [DiscoverSystem.apply, hany]
  · simp [UpdateFleet.apply, applyToSystem_not_found n _ _ h]
  · simp [DestroyStar.apply, applyToSystem_not_found n _ _ h]
  · simp [ForgetSystem.apply, applyList_not_found n _ h]

/-- C5 witness: a state whose first homeworld is named `"A"`; operations on
the name `"A"` behave as if no such system exists. -/
theorem C5_lookup_scans_only_discovered_witness :
    (DiscoverSystem.apply ⟨"A", ⟨pSR⟩⟩ stA).1 = .ok () ∧
    UpdateFleet.apply ⟨"A", .First, ⟨pSR⟩, .AddOne⟩ stA = (.error .UnknownStarSystem, stA) ∧
    DestroyStar.apply ⟨"A", .Single⟩ stA = (.error .UnknownStarSystem, stA) ∧
    ForgetSystem.apply ⟨"A"⟩ stA = (.error .UnknownStarSystem, stA) :=
  C5_lookup_scans_only_discovered stA "A" ⟨pSR⟩ .First ⟨pSR⟩ .AddOne .Single
    (by intro x hx; cases hx)

/-- C8: `DiscoverSystem` fails `DuplicatedStarSystemName{name}` with the state
unchanged when a discovered system already carries the name, and otherwise
appends exactly one new system with the given name, a `SingleStar` center of
the given star, two empty fleets and no homeworld tag. -/
theorem C8_discover_system (s : CurrentTurnState) (n : String) (star : Star) :
    (s.game_board.discovered_systems.any (fun it => it.name = n) = true →
      DiscoverSystem.apply ⟨n, star⟩ s = (.error (.DuplicatedStarSystemName n), s)) ∧
    (s.game_board.discovered_systems.any (fun it => it.name = n) = false →
      DiscoverSystem.apply ⟨n, star⟩ s
        = (.ok (), { s with game_board := { s.game_board with discovered_systems :=
            s.game_board.discovered_systems ++
              [⟨n, .SingleStar star, Fleet.default, Fleet.default, none⟩] } })) := by
  constructor
  · intro h
    simp [DiscoverSystem.apply, h]
  · intro h
    simp [DiscoverSystem.apply, h]

/-- C8 witness: discovering `"Alpha"` on the empty board succeeds with exactly
the appended system; on a board already holding `"Alpha"` it fails with the
name carried in the error and the state unchanged. -/
theorem C8_discover_system_witness :
    DiscoverSystem.apply ⟨"Alpha", ⟨pSR⟩⟩ binState
      = (.error (.DuplicatedStarSystemName "Alpha"), binState) ∧
    DiscoverSystem.apply ⟨"Alpha", ⟨pSR⟩⟩ baseState
      = (.ok (), { baseState with game_board := { baseState.game_board with
          discovered_systems := baseState.game_board.discovered_systems ++
            [⟨"Alpha", .SingleStar ⟨pSR⟩, Fleet.default, Fleet.default, none⟩] } }) :=
  ⟨(C8_discover_system binState "Alpha" ⟨pSR⟩).1 (by decide),
   (C8_discover_system baseState "Alpha" ⟨pSR⟩).2 (by decide)⟩

/-- C9: `ForgetSystem` checks `UnknownStarSystem`, then `CannotForgetHomeworld`,
then `FleetsNotEmpty`, in that order, and on success removes exactly the first
system carrying the name, shrinking the discovered count by one; every failure
removes nothing. -/
theorem C9_forget_system (s : CurrentTurnState) (n : String) :
    ((∀ x ∈ s.game_board.discovered_systems, x.name ≠ n) →
      ForgetSystem.apply ⟨n⟩ s = (.error .UnknownStarSystem, s)) ∧
    (∀ pre sys post,
      s.game_board.discovered_systems = pre ++ sys :: post →
      (∀ x ∈ pre, x.name ≠ n) → sys.name = n →
      (sys.is_homeworld_for.isSome →
        ForgetSystem.apply ⟨n⟩ s
          = (.error (.ForgetSystemError .CannotForgetHomeworld), s)) ∧
      (sys.is_homeworld_for = none →
        (sys.fleet_first.starships ≠ [] ∨ sys.fleet_second.starships ≠ []) →
        ForgetSystem.apply ⟨n⟩ s = (.error (.ForgetSystemError .FleetsNotEmpty), s)) ∧
      (sys.is_homeworld_for = none → sys.fleet_first.starships = [] →
        sys.fleet_second.starships = [] →
        ForgetSystem.apply ⟨n⟩ s
          = (.ok (), { s with game_board := { s.game_board with
              discovered_systems := pre ++ post } }) ∧
        (ForgetSystem.apply ⟨n⟩ s).2.game_board.discovered_systems.length + 1
          = s.game_board.discovered_systems.length)) := by
  constructor
  · intro h
    simp [ForgetSystem.apply, applyList_not_found n _ h]
  · intro pre sys post hd hpre hname
    have hskip := applyList_skip n pre (sys :: post) hpre
    refine ⟨?_, ?_, ?_⟩
    · intro hh
      have hhead : ForgetSystem.applyList n (sys :: post)
          = (.error (.ForgetSystemError .CannotForgetHomeworld), sys :: post) := by
        simp [ForgetSystem.applyList, hname, hh]
      simp only [ForgetSystem.apply, hd, hskip, hhead]
      rw [← hd]
    · intro hh hf
      have hhead : ForgetSystem.applyList n (sys :: post)
          = (.error (.ForgetSystemError .FleetsNotEmpty), sys :: post) := by
        simp [ForgetSystem.applyList, hname, hh, hf]
      simp only [ForgetSystem.apply, hd, hskip, hhead]
      rw [← hd]
    · intro hh hf1 hf2
      have hhead : ForgetSystem.applyList n (sys :: post) = (.ok (), post) := by
        simp [ForgetSystem.applyList, hname, hh, hf1, hf2]
      constructor
      · simp only [ForgetSystem.apply, hd, hskip, hhead]
      · simp only [ForgetSystem.apply, hd, hskip, hhead]
        simp [List.length_append]
        omega

/-- C9 witness: the four branches evaluated on concrete boards (forgetting an
unknown name, a homeworld-tagged system, a system with a non-empty fleet, and
a clean discovered system). -/
theorem C9_forget_system_witness :
    ForgetSystem.apply ⟨"Alpha"⟩ baseState = (.error .UnknownStarSystem, baseState) ∧
    ForgetSystem.apply ⟨"Alpha"⟩ hwDiscState
      = (.error (.ForgetSystemError .CannotForgetHomeworld), hwDiscState) ∧
    ForgetSystem.apply ⟨"Alpha"⟩ fleetState
      = (.error (.ForgetSystemError .FleetsNotEmpty), fleetState) ∧
    ForgetSystem.apply ⟨"Alpha"⟩ cleanState
      = (.ok (), { cleanState with game_board := { cleanState.game_board with
          discovered_systems := [] ++ [] } }) :=
  ⟨(C9_forget_system baseState "Alpha").1 (by intro x hx; cases hx),
   ((C9_forget_system hwDiscState "Alpha").2 [] hwDisc [] rfl
      (by intro x hx; cases hx) rfl).1 (by decide),
   ((C9_forget_system fleetState "Alpha").2 [] fleetSys [] rfl
      (by intro x hx; cases hx) rfl).2.1 rfl (by decide),
   (((C9_forget_system cleanState "Alpha").2 [] cleanSys [] rfl
      (by intro x hx; cases hx) rfl).2.2 rfl rfl rfl).1⟩

/-- C3: the `DestroyStar` result table. On the first discovered system named
`n`: `Binary(Alpha)` on a binary center succeeds leaving `SingleStar(beta)`,
`Binary(Beta)` leaves `SingleStar(alpha)`, `Single` on a single-star center
succeeds leaving `Empty`; any selector on an `Empty` center returns
`CenterAlreadyEmpty`, `Binary` on a single-star center returns
`NotABinarySystem`, `Single` on a binary center returns
`NotASingleStarSystem`; and when no discovered system is named `n` the result
is `UnknownStarSystem` with the state untouched. -/
theorem C3_destroy_star_table :
    (∀ (s : CurrentTurnState) (n : String) pre sys post,
      s.game_board.discovered_systems = pre ++ sys :: post →
      (∀ x ∈ pre, x.name ≠ n) → sys.name = n →
      (∀ a b, sys.center = .BinaryStar a b →
        DestroyStar.apply ⟨n, .Binary .Alpha⟩ s
          = (.ok (), { s with game_board := { s.game_board with discovered_systems :=
              pre ++ { sys with center := .SingleStar b } :: post } }) ∧
        DestroyStar.apply ⟨n, .Binary .Beta⟩ s
          = (.ok (), { s with game_board := { s.game_board with discovered_systems :=
              pre ++ { sys with center := .SingleStar a } :: post } }) ∧
        (DestroyStar.apply ⟨n, .Single⟩ s).1
          = .error (.DestroyStarError .NotASingleStarSystem)) ∧
      (∀ st, sys.center = .SingleStar st →
        DestroyStar.apply ⟨n, .Single⟩ s
          = (.ok (), { s with game_board := { s.game_board with discovered_systems :=
              pre ++ { sys with center := .Empty } :: post } }) ∧
        (∀ i, (DestroyStar.apply ⟨n, .Binary i⟩ s).1
          = .error (.DestroyStarError .NotABinarySystem))) ∧
      (sys.center = .Empty →
        ∀ sel, (DestroyStar.apply ⟨n, sel⟩ s).1
          = .error (.DestroyStarError .CenterAlreadyEmpty))) ∧
    (∀ (s : CurrentTurnState) (n : String),
      (∀ x ∈ s.game_board.discovered_systems, x.name ≠ n) →
      ∀ sel, DestroyStar.apply ⟨n, sel⟩ s = (.error .UnknownStarSystem, s)) := by
  constructor
  · intro s n pre sys post hd hpre hname
    refine ⟨?_, ?_, ?_⟩
    · intro a b hc
      refine ⟨?_, ?_, ?_⟩
      · have hskip := applyToSystem_skip n (DestroyStar.applySystem (.Binary .Alpha))
          pre (sys :: post) hpre
        rw [applyToSystem_head n _ sys post hname] at hskip
        simp only [DestroyStar.apply, hd, hskip, DestroyStar.applySystem, hc]
      · have hskip := applyToSystem_skip n (DestroyStar.applySystem (.Binary .Beta))
          pre (sys :: post) hpre
        rw [applyToSystem_head n _ sys post hname] at hskip
        simp only [DestroyStar.apply, hd, hskip, DestroyStar.applySystem, hc]
      · have hskip := applyToSystem_skip n (DestroyStar.applySystem .Single)
          pre (sys :: post) hpre
        rw [applyToSystem_head n _ sys post hname] at hskip
        simp only [DestroyStar.apply, hd, hskip, DestroyStar.applySystem, hc]
    · intro st hc
      constructor
      · have hskip := applyToSystem_skip n (DestroyStar.applySystem .Single) pre (sys :: post) hpre
        rw [applyToSystem_head n _ sys post hname] at hskip
        simp only [DestroyStar.apply, hd, hskip, DestroyStar.applySystem, hc]
      · intro i
        have hskip := applyToSystem_skip n (DestroyStar.applySystem (.Binary i)) pre (sys :: post) hpre
        rw [applyToSystem_head n _ sys post hname] at hskip
        simp only [DestroyStar.apply, hd, hskip, DestroyStar.applySystem, hc]
    · intro hc sel
      have hskip := applyToSystem_skip n (DestroyStar.applySystem sel) pre (sys :: post) hpre
      rw [applyToSystem_head n _ sys post hname] at hskip
      cases sel <;>
        simp only [DestroyStar.apply, hd, hskip, DestroyStar.applySystem, hc]
  · intro s n h sel
    simp [DestroyStar.apply, applyToSystem_not_found n _ _ h]

/-- C3 witness: the whole table evaluated on concrete one-system boards with a
binary, a single-star, an empty center, and on a board with no system of the
requested name. -/
theorem C3_destroy_star_table_witness :
    DestroyStar.apply ⟨"Alpha", .Binary .Alpha⟩ binState
      = (.ok (), { binState with game_board := { binState.game_board with
          discovered_systems := [] ++ { binSys with center := .SingleStar ⟨pMB⟩ } :: [] } }) ∧
    DestroyStar.apply ⟨"Alpha", .Binary .Beta⟩ binState
      = (.ok (), { binState with game_board := { binState.game_board with
          discovered_systems := [] ++ { binSys with center := .SingleStar ⟨pSR⟩ } :: [] } }) ∧
    (DestroyStar.apply ⟨"Alpha", .Single⟩ binState).1
      = .error (.DestroyStarError .NotASingleStarSystem) ∧
    DestroyStar.apply ⟨"Alpha", .Single⟩ singleState
      = (.ok (), { singleState with game_board := { singleState.game_board with
          discovered_systems := [] ++ { singleSys with center := .Empty } :: [] } }) ∧
    (DestroyStar.apply ⟨"Alpha", .Binary .Alpha⟩ singleState).1
      = .error (.DestroyStarError .NotABinarySystem) ∧
    (DestroyStar.apply ⟨"Alpha", .Single⟩ cleanState).1
      = .error (.DestroyStarError .CenterAlreadyEmpty) ∧
    DestroyStar.apply ⟨"Alpha", .Single⟩ baseState
      = (.error .UnknownStarSystem, baseState) := by
  have hbin := (C3_destroy_star_table.1 binState "Alpha" [] binSys [] rfl
    (by intro x hx; cases hx) rfl).1 ⟨pSR⟩ ⟨pMB⟩ rfl
  have hsingle := (C3_destroy_star_table.1 singleState "Alpha" [] singleSys [] rfl
    (by intro x hx; cases hx) rfl).2.1 ⟨pSR⟩ rfl
  have hempty := (C3_destroy_star_table.1 cleanState "Alpha" [] cleanSys [] rfl
    (by intro x hx; cases hx) rfl).2.2 rfl .Single
  have hunk := C3_destroy_star_table.2 baseState "Alpha" (by intro x hx; cases hx) .Single
  exact ⟨hbin.1, hbin.2.1, hbin.2.2, hsingle.1, hsingle.2 .Alpha, hempty, hunk⟩

/-! ### Ledger membership lemmas for the count-positivity invariant -/

theorem Ledger.mem_set {K : Type} [DecidableEq K] (l : Ledger K) (k : K) (c : Nat) :
    ∀ p ∈ Ledger.set l k c, p = (k, c) ∨ p ∈ l := by
  induction l with
  | nil => intro p hp; cases hp
  | cons q rest ih =>
    intro p hp
    by_cases hq : q.1 = k
    · simp only [Ledger.set, hq, if_true, List.mem_cons] at hp
      rcases hp with hp | hp
      · exact Or.inl hp
      · exact Or.inr (List.mem_cons_of_mem _ hp)
    · simp only [Ledger.set, hq, if_false, List.mem_cons] at hp
      rcases hp with hp | hp
      · exact Or.inr (by simp [hp])
      · rcases ih p hp with h | h
        · exact Or.inl h
        · exact Or.inr (List.mem_cons_of_mem _ h)

theorem Ledger.mem_remove {K : Type} [DecidableEq K] (l : Ledger K) (k : K) :
    ∀ p ∈ Ledger.remove l k, p ∈ l := by
  induction l with
  | nil => intro p hp; cases hp
  | cons q rest ih =>
    intro p hp
    by_cases hq : q.1 = k
    · simp only [Ledger.remove, hq, if_true] at hp
      exact List.mem_cons_of_mem _ hp
    · simp only [Ledger.remove, hq, if_false, List.mem_cons] at hp
      rcases hp with hp | hp
      · simp [hp]
      · exact List.mem_cons_of_mem _ (ih p hp)

theorem update_hashmap_count_pos {K E : Type} [DecidableEq K]
    (l : Ledger K) (k : K) (d : UpdateOneDelta) (oe nfe : E) (next : Ledger K)
    (h : ∀ p ∈ l, p.2 ≠ 0) (hu : update_hashmap_count l k d oe nfe = .ok next) :
    ∀ p ∈ next, p.2 ≠ 0 := by
  intro p hp
  cases d with
  | AddOne =>
    cases hget : Ledger.get l k with
    | some c =>
      simp only [update_hashmap_count, hget] at hu
      by_cases hc : c + 1 ≤ 255
      · rw [if_pos hc] at hu
        cases hu
        rcases Ledger.mem_set l k (c + 1) p hp with hcase | hcase
        · simp [hcase]
        · exact h p hcase
      · rw [if_neg hc] at hu
        cases hu
    | none =>
      simp only [update_hashmap_count, hget] at hu
      cases hu
      rcases List.mem_append.mp hp with hcase | hcase
      · exact h p hcase
      · simp only [List.mem_singleton] at hcase
        simp [hcase]
  | RemoveOne =>
    cases hget : Ledger.get l k with
    | some c =>
      simp only [update_hashmap_count, hget] at hu
      by_cases hc : c > 1
      · rw [if_pos hc] at hu
        cases hu
        rcases Ledger.mem_set l k (c - 1) p hp with hcase | hcase
        · simp [hcase]
          omega
        · exact h p hcase
      · rw [if_neg hc] at hu
        cases hu
        exact h p (Ledger.mem_remove l k p hp)
    | none =>
      simp only [update_hashmap_count, hget] at hu
      cases hu

theorem runUpdates_pos {K : Type} [DecidableEq K]
    (ops : List (K × UpdateOneDelta)) (l : Ledger K) (h : ∀ p ∈ l, p.2 ≠ 0) :
    ∀ p ∈ runUpdates ops l, p.2 ≠ 0 := by
  induction ops generalizing l with
  | nil => exact h
  | cons op rest ih =>
    obtain ⟨k, d⟩ := op
    cases hu : update_hashmap_count l k d () () with
    | ok next =>
      simp only [runUpdates, hu]
      exact ih next (update_hashmap_count_pos l k d () () next h hu)
    | error e =>
      simp only [runUpdates, hu]
      exact ih l h

/-- C7: the ledger update primitive. `AddOne` inserts count 1 on an absent
key, increments below 255 and errors (leaving the ledger as it was) at 255;
`RemoveOne` errors on an absent key, decrements above 1 and deletes the key at
exactly 1; and any sequence of updates preserves the "no key stored with
count 0" invariant. -/
theorem C7_update_hashmap_count {K E : Type} [DecidableEq K]
    (l : Ledger K) (k : K) (oe nfe : E) (c : Nat) (ops : List (K × UpdateOneDelta)) :
    (Ledger.get l k = none →
      update_hashmap_count l k .AddOne oe nfe = .ok (Ledger.insert l k 1)) ∧
    (Ledger.get l k = some c → c < 255 →
      update_hashmap_count l k .AddOne oe nfe = .ok (Ledger.set l k (c + 1))) ∧
    (Ledger.get l k = some 255 →
      update_hashmap_count l k .AddOne oe nfe = .error oe) ∧
    (Ledger.get l k = none →
      update_hashmap_count l k .RemoveOne oe nfe = .error nfe) ∧
    (Ledger.get l k = some c → 1 < c →
      update_hashmap_count l k .RemoveOne oe nfe = .ok (Ledger.set l k (c - 1))) ∧
    (Ledger.get l k = some 1 →
      update_hashmap_count l k .RemoveOne oe nfe = .ok (Ledger.remove l k)) ∧
    ((∀ p ∈ l, p.2 ≠ 0) → ∀ p ∈ runUpdates ops l, p.2 ≠ 0) := by
  refine ⟨?_, ?_, ?_, ?_, ?_, ?_, fun h => runUpdates_pos ops l h⟩
  · intro hget
    simp [update_hashmap_count, hget]
  · intro hget hlt
    simp [update_hashmap_count, hget, Nat.succ_le_of_lt hlt]
  · intro hget
    simp [update_hashmap_count, hget]
  · intro hget
    simp [update_hashmap_count, hget]
  · intro hget hgt
    simp [update_hashmap_count, hget, hgt]
  · intro hget
    simp [update_hashmap_count, hget]

/-- C7 witness: every branch of the primitive, and the positivity invariant
after a concrete update sequence, on small `Nat`-keyed ledgers. -/
theorem C7_update_hashmap_count_witness :
    update_hashmap_count ([] : Ledger Nat) 5 .AddOne true false = .ok [(5, 1)] ∧
    update_hashmap_count ([(5, 7)] : Ledger Nat) 5 .AddOne true false = .ok [(5, 8)] ∧
    update_hashmap_count ([(5, 255)] : Ledger Nat) 5 .AddOne true false = .error true ∧
    update_hashmap_count ([] : Ledger Nat) 5 .RemoveOne true false = .error false ∧
    update_hashmap_count ([(5, 7)] : Ledger Nat) 5 .RemoveOne true false = .ok [(5, 6)] ∧
    update_hashmap_count ([(5, 1)] : Ledger Nat) 5 .RemoveOne true false = .ok [] ∧
    List.all
      (runUpdates [(5, .AddOne), (5, .AddOne), (6, .RemoveOne), (5, .RemoveOne)]
        ([] : Ledger Nat))
      (fun p => p.2 != 0) = true := by
  refine ⟨?_, ?_, ?_, ?_, ?_, ?_, ?_⟩
  · exact (C7_update_hashmap_count ([] : Ledger Nat) 5 true false 0 []).1 rfl
  · exact (C7_update_hashmap_count [(5, 7)] 5 true false 7 []).2.1 rfl (by decide)
  · exact (C7_update_hashmap_count [(5, 255)] 5 true false 255 []).2.2.1 rfl
  · exact (C7_update_hashmap_count ([] : Ledger Nat) 5 true false 0 []).2.2.2.1 rfl
  · exact (C7_update_hashmap_count [(5, 7)] 5 true false 7 []).2.2.2.2.1 rfl (by decide)
  · exact (C7_update_hashmap_count [(5, 1)] 5 true false 1 []).2.2.2.2.2.1 rfl
  · refine List.all_eq_true.mpr (fun p hp => ?_)
    have := (C7_update_hashmap_count ([] : Ledger Nat) 5 true false 0
      [(5, .AddOne), (5, .AddOne), (6, .RemoveOne), (5, .RemoveOne)]).2.2.2.2.2.2
      (by intro q hq; cases hq) p hp
    simpa using this

end Homeworlds
